import Mathlib

/-!
Verification of the client-side data-orchestration and derived-metrics layer
of the churn-prediction dashboard.

JavaScript numbers are modelled as rationals (ℚ); `Math.round` is modelled as
`⌊q + 1/2⌋` (JS rounds half toward +∞); `Math.ceil` as `⌈q⌉`.  Values that may
be `undefined`/`null` in JS are modelled as `Option`.  The JS `||` fallback on
strings (falsy for `undefined`, `null` and `""`) is modelled explicitly.
-/

namespace Churn

/-- JS `Math.round`: round half toward +∞, i.e. `⌊q + 1/2⌋`. -/
def jsRound (q : ℚ) : ℤ := ⌊q + 1/2⌋

/-- `Math.round` clamped to a natural-number array index (arguments are ≥ 0
at every call site we model). -/
def jsRoundNat (q : ℚ) : ℕ := (jsRound q).toNat

/-- JS `s || d` where `s : Option String`: `undefined`, `null` and the empty
string are falsy and fall through to the default. -/
def jsOrString (s : Option String) (d : String) : String :=
  match s with
  | none => d
  | some v => if v = "" then d else v

/-! ## Data model: Customer Risk Record (src/frontend/src/pages/RiskRanking.jsx) -/

/-- One row of the `/risk-ranking` response's `customers` array
(the fields the Risk Ranking view reads). -/
structure Customer where
  customer_id : String
  risk_score : ℚ
  revenue_estimate : ℚ
  geography : Option String
  plan_type : Option String
deriving DecidableEq, Repr

/-- `inRevenueRange` from RiskRanking.jsx: the four fixed revenue buckets with
wildcard `"all"`; any other range string falls through to `value >= 1000`. -/
def inRevenueRange (value : ℚ) (range : String) : Bool :=
  if range = "all" then true
  else if range = "lt100" then decide (value < 100)
  else if range = "100to500" then decide (100 ≤ value) && decide (value < 500)
  else if range = "500to1000" then decide (500 ≤ value) && decide (value < 1000)
  else decide (1000 ≤ value)

/-- The filter step of `filteredRows` in RiskRanking.jsx: keep customers whose
geography matches the filter (with `'Unknown'` substituted for a falsy
geography, and wildcard `"all"`) and whose revenue estimate is in range. -/
def filteredBase (allCustomers : List Customer) (geographyFilter revenueFilter : String) :
    List Customer :=
  allCustomers.filter fun c =>
    (decide (geographyFilter = "all") || decide (jsOrString c.geography "Unknown" = geographyFilter))
      && inRevenueRange c.revenue_estimate revenueFilter

/-- The comparator of `[...base].sort((a, b) => Number(b.risk_score) - Number(a.risk_score))`:
`a` may come before `b` iff the comparator is ≤ 0, i.e. `b.risk_score ≤ a.risk_score`. -/
def riskDescRel (a b : Customer) : Prop := b.risk_score ≤ a.risk_score

instance : DecidableRel riskDescRel := fun a b =>
  inferInstanceAs (Decidable (b.risk_score ≤ a.risk_score))

/-- Sort a customer list by risk score descending (JS `Array.prototype.sort`
with the comparator above is a stable sort; we model it with a stable
insertion sort). -/
def sortByRiskDesc (l : List Customer) : List Customer :=
  List.insertionSort riskDescRel l

/-- `topCount` in RiskRanking.jsx: `Math.max(1, Math.ceil((topNPercent / 100) * byRiskDesc.length))`. -/
def topCount (topNPercent : ℚ) (len : ℕ) : ℕ :=
  max 1 (⌈topNPercent / 100 * (len : ℚ)⌉.toNat)

/-- `filteredRows` from RiskRanking.jsx: filter by geography and revenue bucket,
sort by risk score descending, then take the top
`max(1, ceil(topNPercent/100 × length))` rows. -/
def filteredRows (allCustomers : List Customer) (geographyFilter revenueFilter : String)
    (topNPercent : ℚ) : List Customer :=
  let base := filteredBase allCustomers geographyFilter revenueFilter
  let byRiskDesc := sortByRiskDesc base
  byRiskDesc.take (topCount topNPercent byRiskDesc.length)

/-! Concrete instance for the spec's 100-customer example: customers with
distinct risk scores 100, 99, …, 1 (ids are the scores as strings). -/

/-- Example customer with the given risk score. -/
def exC (k : ℕ) : Customer :=
  { customer_id := toString k, risk_score := (k : ℚ), revenue_estimate := 0
    geography := none, plan_type := none }

/-- 100 customers with distinct risk scores 100 down to 1. -/
def exCustomers : List Customer := (List.range 100).map fun i => exC (100 - i)

/-! ## Retention Playbook (src/unnamed/part_001) -/

/-- One entry of `PRIORITY_MODEL` in the Retention Playbook view. -/
structure EffectModel where
  reachPct : ℚ
  liftPct : ℚ
  costPerCustomer : ℚ
  severity : String
deriving DecidableEq, Repr

namespace PRIORITY_MODEL

def Critical : EffectModel := ⟨26/100, 22/100, 95, "critical"⟩

def High : EffectModel := ⟨18/100, 14/100, 70, "high"⟩

def Medium : EffectModel := ⟨12/100, 8/100, 45, "medium"⟩

end PRIORITY_MODEL

/-- `PRIORITY_MODEL[priority]`: object lookup keyed by the priority tier. -/
def PRIORITY_MODEL : String → Option EffectModel
  | "Critical" => some PRIORITY_MODEL.Critical
  | "High" => some PRIORITY_MODEL.High
  | "Medium" => some PRIORITY_MODEL.Medium
  | _ => none

/-- A `/retention-playbook` strategy (the fields the view reads). -/
structure Strategy where
  priority : String
  condition : String
  action : String
  icon : Option String
deriving DecidableEq, Repr

/-- One entry of the optimizer response's `strategy_metrics`; each metric field
may be absent (`?.field ?? fallback` falls through on `undefined`/`null`). -/
structure OptimizerMetric where
  strategy_id : ℕ
  targeted_customers : Option ℚ
  prevented_churners : Option ℚ
  estimated_cost : Option ℚ
  estimated_net_impact : Option ℚ
deriving DecidableEq, Repr

/-- The fields of one element of `strategyRows` (the spread of the strategy
itself is omitted; `idx` and the four derived metrics are kept). -/
structure StrategyRow where
  idx : ℕ
  targetedCustomers : ℚ
  preventedChurners : ℚ
  estimatedCost : ℚ
  netImpact : ℚ
deriving DecidableEq, Repr

/-- `avgRevenue` constant in `strategyRows`. -/
def avgRevenue : ℚ := 500

/-- `avgRiskProb` constant in `strategyRows`. -/
def avgRiskProb : ℚ := 45/100

/-- The body of the `strategyRows` map for one strategy at index `idx`:
local projection from the priority's effect model (with the `Medium` fallback
for an unknown priority), overlaid field by field by the backend metric via
`backendMetric?.field ?? localValue`. -/
def strategyRow (totalCustomers : ℚ) (idx : ℕ) (strategy : Strategy)
    (backendMetric : Option OptimizerMetric) : StrategyRow :=
  let model := (PRIORITY_MODEL strategy.priority).getD PRIORITY_MODEL.Medium
  let targetedCustomers : ℚ := (jsRound (totalCustomers * model.reachPct) : ℤ)
  let preventedChurners := targetedCustomers * avgRiskProb * model.liftPct
  let estimatedCost := targetedCustomers * model.costPerCustomer
  let netImpact := preventedChurners * avgRevenue - estimatedCost
  { idx := idx
    targetedCustomers := ((backendMetric.bind (·.targeted_customers)).getD targetedCustomers)
    preventedChurners := ((backendMetric.bind (·.prevented_churners)).getD preventedChurners)
    estimatedCost := ((backendMetric.bind (·.estimated_cost)).getD estimatedCost)
    netImpact := ((backendMetric.bind (·.estimated_net_impact)).getD netImpact) }

/-- The `/risk-ranking` response as read by the playbook (`total_in_segment`). -/
structure SegmentData where
  total_in_segment : Option ℚ
deriving DecidableEq, Repr

/-- `segmentData?.total_in_segment ?? 0`. -/
def totalCustomersOf (segmentData : Option SegmentData) : ℚ :=
  (segmentData.bind (·.total_in_segment)).getD 0

/-- `strategyRows` from the Retention Playbook view: map each strategy with its
index to its (possibly overlaid) derived-metrics row. -/
def strategyRows (segmentData : Option SegmentData) (strategies : List Strategy)
    (optimizerMetrics : ℕ → Option OptimizerMetric) : List StrategyRow :=
  strategies.enum.map fun p =>
    strategyRow (totalCustomersOf segmentData) p.1 p.2 (optimizerMetrics p.1)

/-- `enabledStrategies = strategyRows.filter(s => enabledMap[s.idx])`. -/
def enabledStrategies (rows : List StrategyRow) (enabledMap : ℕ → Bool) :
    List StrategyRow :=
  rows.filter fun s => enabledMap s.idx

/-- The `totals` record of the playbook view. -/
structure Totals where
  covered : ℚ
  cost : ℚ
  net : ℚ
deriving DecidableEq, Repr

/-- `totals`: the three `reduce((sum, s) => sum + …, 0)` folds over a row list
(the view applies them to `enabledStrategies`). -/
def totals (rows : List StrategyRow) : Totals :=
  { covered := rows.foldl (fun sum s => sum + s.targetedCustomers) 0
    cost := rows.foldl (fun sum s => sum + s.estimatedCost) 0
    net := rows.foldl (fun sum s => sum + s.netImpact) 0 }

/-- Example strategy used in closed witnesses. -/
def exStrategy : Strategy := { priority := "Critical", condition := "", action := "", icon := none }

/-! ## API Client (src/frontend/src/api.js)

The async/timing behaviour of `withTimeout` + `fetch` + `AbortController` is
embedded as explicit event-time semantics: a call's network behaviour is
either a response arriving at `arrivalMs` with a status and body, a transport
failure arriving at `arrivalMs`, or no response at all.  The abort timer fires
at `REQUEST_TIMEOUT_MS`; a behaviour arriving at or after that instant is
pre-empted by the abort (the `AbortError` branch of the `catch`), so the call
resolves to the timeout error and the network request is aborted. -/

/-- `REQUEST_TIMEOUT_MS = 15000`. -/
def REQUEST_TIMEOUT_MS : ℚ := 15000

/-- The network behaviour of one `fetch`. -/
inductive FetchBehavior (α : Type) where
  | respond (arrivalMs : ℚ) (status : ℕ) (body : α)
  | fail (arrivalMs : ℚ) (message : String)
  | hang
deriving Repr

/-- What one API call resolves to, plus whether the in-flight network request
was aborted by the timeout timer. -/
structure ApiResult (α : Type) where
  result : Except String α
  aborted : Bool
deriving Repr

/-- The message of the GET timeout error:
`` `API ${path} timed out after ${REQUEST_TIMEOUT_MS / 1000}s` ``. -/
def timeoutMessage (path : String) : String :=
  "API " ++ path ++ " timed out after 15s"

/-- The message of the GET HTTP-status error: `` `API ${path} → ${res.status}` ``. -/
def httpErrorMessage (path : String) (status : ℕ) : String :=
  "API " ++ path ++ " → " ++ toString status

/-- The message of the POST timeout error. -/
def postTimeoutMessage (path : String) : String :=
  "API POST " ++ path ++ " timed out after 15s"

/-- The message of the POST HTTP-status error. -/
def postHttpErrorMessage (path : String) (status : ℕ) : String :=
  "API POST " ++ path ++ " → " ++ toString status

/-- `res.ok`: HTTP status in the 2xx range. -/
def statusOk (status : ℕ) : Prop := 200 ≤ status ∧ status < 300

instance (status : ℕ) : Decidable (statusOk status) :=
  inferInstanceAs (Decidable (_ ∧ _))

/-- `get` from api.js under the event-time semantics: a response inside the
window is decoded (2xx) or mapped to the HTTP-status error; a transport
failure inside the window is rethrown unchanged; otherwise the abort timer
fires first, the request is aborted, and the `AbortError` is mapped to the
timeout error. -/
def get {α : Type} (path : String) (behavior : FetchBehavior α) : ApiResult α :=
  match behavior with
  | .respond t status body =>
    if t < REQUEST_TIMEOUT_MS then
      if statusOk status then ⟨.ok body, false⟩
      else ⟨.error (httpErrorMessage path status), false⟩
    else ⟨.error (timeoutMessage path), true⟩
  | .fail t message =>
    if t < REQUEST_TIMEOUT_MS then ⟨.error message, false⟩
    else ⟨.error (timeoutMessage path), true⟩
  | .hang => ⟨.error (timeoutMessage path), true⟩

/-- `post` from api.js: identical control flow to `get` with the POST error
messages. -/
def post {α : Type} (path : String) (behavior : FetchBehavior α) : ApiResult α :=
  match behavior with
  | .respond t status body =>
    if t < REQUEST_TIMEOUT_MS then
      if statusOk status then ⟨.ok body, false⟩
      else ⟨.error (postHttpErrorMessage path status), false⟩
    else ⟨.error (postTimeoutMessage path), true⟩
  | .fail t message =>
    if t < REQUEST_TIMEOUT_MS then ⟨.error message, false⟩
    else ⟨.error (postTimeoutMessage path), true⟩
  | .hang => ⟨.error (postTimeoutMessage path), true⟩

/-- The GET timeout-error message is never equal to a GET HTTP-status-error
message for the same path. -/
theorem timeoutMessage_ne_httpErrorMessage (p : String) (s : ℕ) :
    timeoutMessage p ≠ httpErrorMessage p s := by
  intro h
  have hd := congrArg String.data h
  simp only [timeoutMessage, httpErrorMessage, String.data_append, List.append_assoc] at hd
  have h2 := List.append_cancel_left hd
  have h3 := List.append_cancel_left h2
  simp at h3

/-- The POST timeout-error message is never equal to a POST HTTP-status-error
message for the same path. -/
theorem postTimeoutMessage_ne_postHttpErrorMessage (p : String) (s : ℕ) :
    postTimeoutMessage p ≠ postHttpErrorMessage p s := by
  intro h
  have hd := congrArg String.data h
  simp only [postTimeoutMessage, postHttpErrorMessage, String.data_append,
    List.append_assoc] at hd
  have h2 := List.append_cancel_left hd
  have h3 := List.append_cancel_left h2
  simp at h3

/-! ## Display sort of the Risk Ranking view (RiskRanking.jsx, `displayedRows`) -/

/-- `SORTABLE_COLUMNS` as (key, type) pairs (labels are presentational only). -/
def SORTABLE_COLUMNS : List (String × String) :=
  [("customer_id", "string"), ("risk_score", "number"), ("revenue_estimate", "number"),
    ("geography", "string"), ("plan_type", "string")]

/-- `colMeta?.type ?? 'string'`: the type of the active sort column, defaulting
to `string` when the key is not a sortable column. -/
def columnType (key : String) : String :=
  ((SORTABLE_COLUMNS.find? fun c => c.1 = key).map (·.2)).getD "string"

/-- `Number(a?.[sortBy] ?? 0)` for the number-typed columns.  `columnType` is
`"number"` only for `risk_score` and `revenue_estimate`, so only those two
reads are reachable under the number branch; any other key reads `undefined`,
and `Number(undefined ?? 0) = 0`. -/
def numericField (key : String) (c : Customer) : ℚ :=
  if key = "risk_score" then c.risk_score
  else if key = "revenue_estimate" then c.revenue_estimate
  else 0

/-- `String(a?.[sortBy] ?? '')` for the string-typed columns (a missing field
reads as the empty string).  The two number-typed keys never reach this branch
and any non-column key reads `undefined`, hence `''`. -/
def stringField (key : String) (c : Customer) : String :=
  if key = "customer_id" then c.customer_id
  else if key = "geography" then c.geography.getD ""
  else if key = "plan_type" then c.plan_type.getD ""
  else ""

/-- The display comparator of `displayedRows` as a "may come first" relation:
`a` before `b` iff the JS comparator is ≤ 0.  `localeCompare` on the
lowercased strings is modelled as code-point order on the lowercased
strings (locale-independent total order). -/
def displayLe (sortBy sortDir : String) (a b : Customer) : Prop :=
  if columnType sortBy = "number" then
    if sortDir = "asc" then numericField sortBy a ≤ numericField sortBy b
    else numericField sortBy b ≤ numericField sortBy a
  else
    if sortDir = "asc" then (stringField sortBy a).toLower ≤ (stringField sortBy b).toLower
    else (stringField sortBy b).toLower ≤ (stringField sortBy a).toLower

instance (sortBy sortDir : String) : DecidableRel (displayLe sortBy sortDir) := by
  intro a b
  unfold displayLe
  infer_instance

/-- `displayedRows`: a sorted copy (`[...filteredRows].sort(...)`) of the
top-N slice; the source collection itself is never mutated. -/
def displayedRows (sortBy sortDir : String) (rows : List Customer) : List Customer :=
  List.insertionSort (displayLe sortBy sortDir) rows

/-! ## `subsample` (src/frontend/src/api.js) -/

/-- `subsample(arr, n)` from api.js.  A JS array read `arr[k]` that may be out
of bounds is modelled as `List.get?` (`none` = `undefined`), so the element
type of a downsampled result is `Option α`; the `!arr` guard is modelled by an
`Option` around the whole array. -/
def subsample {α : Type} (arr : Option (List α)) (n : ℕ) : Option (List (Option α)) :=
  match arr with
  | none => none
  | some a =>
    if a.length ≤ n then some (a.map some)
    else some ((List.range n).map fun i : ℕ =>
      a.get? (jsRoundNat ((i : ℚ) * ((a.length : ℚ) / (n : ℚ)))))

end Churn

namespace Churn

/-- C8: `inRevenueRange` buckets are lower-bound inclusive and upper-bound
exclusive: `lt100` ⇔ value < 100, `100to500` ⇔ 100 ≤ value < 500,
`500to1000` ⇔ 500 ≤ value < 1000, the remaining (`gt1000`) bucket ⇔
value ≥ 1000, and `"all"` accepts everything; in particular revenue 100.00
falls in `100to500`, not `lt100`. -/
theorem inRevenueRange_buckets (v : ℚ) :
    inRevenueRange v "all" = true
    ∧ (inRevenueRange v "lt100" = true ↔ v < 100)
    ∧ (inRevenueRange v "100to500" = true ↔ 100 ≤ v ∧ v < 500)
    ∧ (inRevenueRange v "500to1000" = true ↔ 500 ≤ v ∧ v < 1000)
    ∧ (inRevenueRange v "gt1000" = true ↔ 1000 ≤ v)
    ∧ inRevenueRange (100 : ℚ) "100to500" = true
    ∧ inRevenueRange (100 : ℚ) "lt100" = false := by
  refine ⟨rfl, ?_, ?_, ?_, ?_, by decide, by decide⟩ <;>
    simp [inRevenueRange]

/-- C1: the top-N selection of the Risk Ranking view is: filter by geography
and revenue bucket, sort the filtered set by risk score descending, take the
top `max(1, ⌈N/100 × filtered-count⌉)` rows; hence the result is empty when
the filtered set is empty and has at least one row when it is non-empty; and
on 100 customers with distinct risk scores 1..100 and N = 10, the selection
is exactly the 10 customers with scores 91..100. -/
theorem riskRanking_topN (all : List Customer) (g r : String) (N : ℚ) :
    filteredRows all g r N =
      (sortByRiskDesc (filteredBase all g r)).take
        (topCount N (filteredBase all g r).length)
    ∧ (filteredBase all g r = [] → filteredRows all g r N = [])
    ∧ (filteredBase all g r ≠ [] → 1 ≤ (filteredRows all g r N).length)
    ∧ filteredRows exCustomers "all" "all" 10 =
        (List.range 10).map (fun i => exC (100 - i)) := by
  have hlen : (sortByRiskDesc (filteredBase all g r)).length =
      (filteredBase all g r).length :=
    (List.perm_insertionSort riskDescRel (filteredBase all g r)).length_eq
  refine ⟨?_, ?_, ?_, ?_⟩
  · simp only [filteredRows, hlen]
  · intro h
    simp [filteredRows, h, sortByRiskDesc, List.insertionSort]
  · intro h
    have hpos : 0 < (filteredBase all g r).length := List.length_pos.mpr h
    have h1 : 1 ≤ topCount N (sortByRiskDesc (filteredBase all g r)).length :=
      le_max_left 1 _
    have : (filteredRows all g r N).length =
        min (topCount N (sortByRiskDesc (filteredBase all g r)).length)
          (sortByRiskDesc (filteredBase all g r)).length := by
      simp [filteredRows, List.length_take]
    rw [this]
    exact le_min h1 (hlen ▸ hpos)
  · have hbase : filteredBase exCustomers "all" "all" = exCustomers := by decide
    have hsort : sortByRiskDesc exCustomers = exCustomers := by decide
    have hlen100 : exCustomers.length = 100 := by decide
    have htc : topCount 10 100 = 10 := by
      simp only [topCount]
      norm_num
      decide
    simp only [filteredRows, hbase, hsort, hlen100, htc]
    decide

/-- Closed witness for `riskRanking_topN`: on a one-customer list the filtered
base is non-empty, so the selection has at least one row. -/
theorem riskRanking_topN_witness :
    1 ≤ (filteredRows [exC 1] "all" "all" 10).length :=
  (riskRanking_topN [exC 1] "all" "all" 10).2.2.1 (by decide)

/-- C2: with no backend metric, a strategy row is the deterministic local
projection from its priority tier's effect model: targeted =
round(total × reach), prevented = targeted × 0.45 × lift, cost =
targeted × costPerCustomer, net = prevented × 500 − cost; and when the total
segment size is zero (or unknown, i.e. `totalCustomersOf none = 0`) all four
derived values are zero. -/
theorem derivedMetrics_local_projection (s : Strategy) (total : ℚ)
    (hp : s.priority = "Critical" ∨ s.priority = "High" ∨ s.priority = "Medium") :
    let m := (PRIORITY_MODEL s.priority).getD PRIORITY_MODEL.Medium
    let row := strategyRow total 0 s none
    row.targetedCustomers = ((jsRound (total * m.reachPct) : ℤ) : ℚ)
    ∧ row.preventedChurners = row.targetedCustomers * (45/100) * m.liftPct
    ∧ row.estimatedCost = row.targetedCustomers * m.costPerCustomer
    ∧ row.netImpact = row.preventedChurners * 500 - row.estimatedCost
    ∧ (total = 0 → row.targetedCustomers = 0 ∧ row.preventedChurners = 0
        ∧ row.estimatedCost = 0 ∧ row.netImpact = 0)
    ∧ totalCustomersOf none = 0 := by
  intro m row
  refine ⟨rfl, rfl, rfl, rfl, ?_, rfl⟩
  rintro rfl
  have hz : row.targetedCustomers = 0 := by
    rcases hp with h | h | h <;>
      simp [row, m, strategyRow, PRIORITY_MODEL, h, PRIORITY_MODEL.Critical,
        PRIORITY_MODEL.High, PRIORITY_MODEL.Medium, jsRound] <;> norm_num
  have hprev : row.preventedChurners = 0 := by
    have : row.preventedChurners = row.targetedCustomers * avgRiskProb *
        ((PRIORITY_MODEL s.priority).getD PRIORITY_MODEL.Medium).liftPct := rfl
    rw [this, hz, zero_mul, zero_mul]
  have hcost : row.estimatedCost = 0 := by
    have : row.estimatedCost = row.targetedCustomers *
        ((PRIORITY_MODEL s.priority).getD PRIORITY_MODEL.Medium).costPerCustomer := rfl
    rw [this, hz, zero_mul]
  refine ⟨hz, hprev, hcost, ?_⟩
  have : row.netImpact = row.preventedChurners * avgRevenue - row.estimatedCost := rfl
  rw [this, hprev, hcost, zero_mul, sub_zero]

/-- Closed witness for `derivedMetrics_local_projection`: a Critical strategy
over an unknown (hence zero) segment total projects zero for every metric. -/
theorem derivedMetrics_local_projection_witness :
    (strategyRow 0 0 exStrategy none).targetedCustomers = 0
    ∧ (strategyRow 0 0 exStrategy none).netImpact = 0 := by
  have h := derivedMetrics_local_projection exStrategy 0 (Or.inl rfl)
  exact ⟨(h.2.2.2.2.1 rfl).1, (h.2.2.2.2.1 rfl).2.2.2⟩

/-- C3: authoritative-override precedence in `strategyRows`: the row at index
`i` takes each of the four metric fields from the stored optimizer metric for
strategy `i` when that metric supplies it, and from the local projection
otherwise, field by field (`backendMetric?.field ?? localValue`). -/
theorem optimizer_override (sd : Option SegmentData) (strategies : List Strategy)
    (ms : ℕ → Option OptimizerMetric) (i : ℕ) (s : Strategy)
    (hs : strategies[i]? = some s) :
    ∃ row, (strategyRows sd strategies ms)[i]? = some row
      ∧ row.targetedCustomers = ((ms i).bind (·.targeted_customers)).getD
          (strategyRow (totalCustomersOf sd) i s none).targetedCustomers
      ∧ row.preventedChurners = ((ms i).bind (·.prevented_churners)).getD
          (strategyRow (totalCustomersOf sd) i s none).preventedChurners
      ∧ row.estimatedCost = ((ms i).bind (·.estimated_cost)).getD
          (strategyRow (totalCustomersOf sd) i s none).estimatedCost
      ∧ row.netImpact = ((ms i).bind (·.estimated_net_impact)).getD
          (strategyRow (totalCustomersOf sd) i s none).netImpact := by
  refine ⟨strategyRow (totalCustomersOf sd) i s (ms i), ?_, ?_, ?_, ?_, ?_⟩
  · simp [strategyRows, List.getElem?_map, List.getElem?_enum, hs]
  all_goals cases hm : ms i <;> rfl

/-- Closed witness for `optimizer_override`: on a one-strategy list with a
stored metric supplying only `targeted_customers = 42`, the displayed row takes
42 for that field and the local projections for the others. -/
theorem optimizer_override_witness :
    ∃ row, (strategyRows (some ⟨some 100⟩) [exStrategy]
        (fun _ => some ⟨0, some 42, none, none, none⟩))[0]? = some row
      ∧ row.targetedCustomers = ((some (OptimizerMetric.mk 0 (some 42) none none none)).bind
          (·.targeted_customers)).getD
          (strategyRow (totalCustomersOf (some ⟨some 100⟩)) 0 exStrategy none).targetedCustomers
      ∧ row.preventedChurners = ((some (OptimizerMetric.mk 0 (some 42) none none none)).bind
          (·.prevented_churners)).getD
          (strategyRow (totalCustomersOf (some ⟨some 100⟩)) 0 exStrategy none).preventedChurners
      ∧ row.estimatedCost = ((some (OptimizerMetric.mk 0 (some 42) none none none)).bind
          (·.estimated_cost)).getD
          (strategyRow (totalCustomersOf (some ⟨some 100⟩)) 0 exStrategy none).estimatedCost
      ∧ row.netImpact = ((some (OptimizerMetric.mk 0 (some 42) none none none)).bind
          (·.estimated_net_impact)).getD
          (strategyRow (totalCustomersOf (some ⟨some 100⟩)) 0 exStrategy none).netImpact :=
  optimizer_override (some ⟨some 100⟩) [exStrategy]
    (fun _ => some ⟨0, some 42, none, none, none⟩) 0 exStrategy rfl

/-- Folding `+ f s` from `a` adds the mapped sum. -/
theorem foldl_add_map_sum (f : StrategyRow → ℚ) (l : List StrategyRow) (a : ℚ) :
    l.foldl (fun acc s => acc + f s) a = a + (l.map f).sum := by
  induction l generalizing a with
  | nil => simp
  | cons x xs ih => simp [ih, add_assoc]

/-- Mapped sums split along a Boolean filter. -/
theorem map_sum_filter_add (f : StrategyRow → ℚ) (p : StrategyRow → Bool)
    (l : List StrategyRow) :
    ((l.filter p).map f).sum + ((l.filter fun s => !p s).map f).sum = (l.map f).sum := by
  induction l with
  | nil => simp
  | cons x xs ih =>
    by_cases h : p x <;> simp [h, List.filter_cons] <;> linarith [ih]

/-- C4: the playbook totals are the sums over exactly the enabled strategies,
and for each of the three totals `sum(enabled) = sum(all) − sum(disabled)`. -/
theorem totals_enabled (rows : List StrategyRow) (enabledMap : ℕ → Bool) :
    let en := enabledStrategies rows enabledMap
    let dis := rows.filter fun s => !enabledMap s.idx
    totals en = ⟨(en.map (·.targetedCustomers)).sum, (en.map (·.estimatedCost)).sum,
        (en.map (·.netImpact)).sum⟩
    ∧ (totals en).covered = (totals rows).covered - (totals dis).covered
    ∧ (totals en).cost = (totals rows).cost - (totals dis).cost
    ∧ (totals en).net = (totals rows).net - (totals dis).net := by
  intro en dis
  have ht : ∀ l : List StrategyRow, totals l = ⟨(l.map (·.targetedCustomers)).sum,
      (l.map (·.estimatedCost)).sum, (l.map (·.netImpact)).sum⟩ := by
    intro l
    simp [totals, foldl_add_map_sum]
  refine ⟨ht en, ?_, ?_, ?_⟩ <;>
    · simp only [ht, en, dis, enabledStrategies]
      have := map_sum_filter_add (fun s => s.targetedCustomers) (fun s => enabledMap s.idx) rows
      have := map_sum_filter_add (fun s => s.estimatedCost) (fun s => enabledMap s.idx) rows
      have := map_sum_filter_add (fun s => s.netImpact) (fun s => enabledMap s.idx) rows
      linarith

/-- C9: the display sort is membership-preserving: for every sortable column
key and direction, the displayed row list is a permutation of the top-N slice,
so changing the secondary sort never changes which rows are selected; the
selection step itself does not depend on the sort parameters. -/
theorem displaySort_membership (sortBy sortDir : String) (all : List Customer)
    (g r : String) (N : ℚ) :
    List.Perm (displayedRows sortBy sortDir (filteredRows all g r N)) (filteredRows all g r N)
    ∧ (∀ c, c ∈ displayedRows sortBy sortDir (filteredRows all g r N) ↔
        c ∈ filteredRows all g r N)
    ∧ (displayedRows sortBy sortDir (filteredRows all g r N)).length =
        (filteredRows all g r N).length :=
  ⟨List.perm_insertionSort _ _,
    fun _ => (List.perm_insertionSort _ _).mem_iff,
    (List.perm_insertionSort _ _).length_eq⟩

/-- C10: `subsample` is total and length-exact: a non-null array no longer
than the bound is returned unchanged; a longer array yields exactly `n`
elements, every one read from an in-bounds index
(`Math.round(i × length / n) ≤ length − 1`), so no element is `undefined`. -/
theorem subsample_safe {α : Type} (a : List α) (n : ℕ) (hn : 1 ≤ n) :
    (a.length ≤ n → subsample (some a) n = some (a.map some))
    ∧ (n < a.length →
        ∃ l, subsample (some a) n = some l ∧ l.length = n
          ∧ (∀ i, i < n →
              jsRoundNat ((i : ℚ) * ((a.length : ℚ) / (n : ℚ))) ≤ a.length - 1)
          ∧ ∀ x ∈ l, x.isSome) := by
  constructor
  · intro h
    simp [subsample, h]
  · intro hlen
    have hidx : ∀ i, i < n →
        jsRoundNat ((i : ℚ) * ((a.length : ℚ) / (n : ℚ))) ≤ a.length - 1 := by
      intro i hi
      have hn0 : (0 : ℚ) < (n : ℚ) := by exact_mod_cast hn
      have hL : ((n : ℚ)) < (a.length : ℚ) := by exact_mod_cast hlen
      have hd : ((a.length : ℚ) / (n : ℚ)) * (n : ℚ) = (a.length : ℚ) :=
        div_mul_cancel₀ _ (ne_of_gt hn0)
      have hd0 : (0 : ℚ) ≤ (a.length : ℚ) / (n : ℚ) := by positivity
      have hd1 : (1 : ℚ) < (a.length : ℚ) / (n : ℚ) := by nlinarith
      have hi' : (i : ℚ) ≤ (n : ℚ) - 1 := by
        have : ((i : ℚ)) + 1 ≤ (n : ℚ) := by exact_mod_cast hi
        linarith
      have harith : (i : ℚ) * ((a.length : ℚ) / (n : ℚ)) + 1/2 < (a.length : ℚ) := by
        nlinarith [mul_le_mul_of_nonneg_right hi' hd0]
      have hfloor : jsRound ((i : ℚ) * ((a.length : ℚ) / (n : ℚ))) < (a.length : ℤ) := by
        rw [jsRound, Int.floor_lt]
        push_cast
        linarith
      unfold jsRoundNat
      omega
    refine ⟨(List.range n).map fun i : ℕ => a.get? (jsRoundNat ((i : ℚ) * ((a.length : ℚ) / (n : ℚ)))),
      by rw [subsample]; simp [Nat.not_le.mpr hlen],
      by rw [List.length_map, List.length_range], hidx, ?_⟩
    intro x hx
    rw [List.mem_map] at hx
    obtain ⟨i, hi, rfl⟩ := hx
    rw [List.mem_range] at hi
    have hlt : jsRoundNat ((i : ℚ) * ((a.length : ℚ) / (n : ℚ))) < a.length := by
      have := hidx i hi
      omega
    rw [List.get?_eq_get hlt]
    simp

/-- Closed witness for `subsample_safe`: subsampling a 3-element array to 2
elements yields 2 in-bounds (`some`) elements. -/
theorem subsample_safe_witness :
    ∃ l, subsample (some [(1 : ℚ), 2, 3]) 2 = some l ∧ l.length = 2
      ∧ (∀ i : ℕ, i < 2 →
          jsRoundNat ((i : ℚ) * (([(1 : ℚ), 2, 3].length : ℚ) / ((2 : ℕ) : ℚ))) ≤
            [(1 : ℚ), 2, 3].length - 1)
      ∧ ∀ x ∈ l, x.isSome :=
  (subsample_safe [(1 : ℚ), 2, 3] 2 (by norm_num)).2 (by norm_num)

/-- C5: every GET or POST call with no response inside the fixed 15000 ms
window resolves to the timeout error and the network request is aborted; the
timeout error is distinct from the HTTP-status error; a 2xx response inside
the window returns the decoded body; a non-2xx response yields the error
tagged with path and status; a transport failure inside the window is passed
through unchanged and not aborted. -/
theorem apiClient_timeout_taxonomy {α : Type} (path : String) (t : ℚ) (status : ℕ)
    (body : α) (message : String) :
    get path (FetchBehavior.hang : FetchBehavior α) = ⟨.error (timeoutMessage path), true⟩
    ∧ (REQUEST_TIMEOUT_MS ≤ t →
        get path (.respond t status body) = ⟨.error (timeoutMessage path), true⟩
        ∧ get (α := α) path (.fail t message) = ⟨.error (timeoutMessage path), true⟩)
    ∧ (t < REQUEST_TIMEOUT_MS → statusOk status →
        get path (.respond t status body) = ⟨.ok body, false⟩)
    ∧ (t < REQUEST_TIMEOUT_MS → ¬ statusOk status →
        get path (.respond t status body) = ⟨.error (httpErrorMessage path status), false⟩)
    ∧ (t < REQUEST_TIMEOUT_MS →
        get (α := α) path (.fail t message) = ⟨.error message, false⟩)
    ∧ timeoutMessage path ≠ httpErrorMessage path status
    ∧ post path (FetchBehavior.hang : FetchBehavior α) = ⟨.error (postTimeoutMessage path), true⟩
    ∧ (REQUEST_TIMEOUT_MS ≤ t →
        post path (.respond t status body) = ⟨.error (postTimeoutMessage path), true⟩
        ∧ post (α := α) path (.fail t message) = ⟨.error (postTimeoutMessage path), true⟩)
    ∧ (t < REQUEST_TIMEOUT_MS → statusOk status →
        post path (.respond t status body) = ⟨.ok body, false⟩)
    ∧ (t < REQUEST_TIMEOUT_MS → ¬ statusOk status →
        post path (.respond t status body) = ⟨.error (postHttpErrorMessage path status), false⟩)
    ∧ (t < REQUEST_TIMEOUT_MS →
        post (α := α) path (.fail t message) = ⟨.error message, false⟩)
    ∧ postTimeoutMessage path ≠ postHttpErrorMessage path status := by
  refine ⟨rfl,
    fun h => ⟨by simp [get, not_lt.mpr h], by simp [get, not_lt.mpr h]⟩,
    fun h hok => by simp [get, h, hok],
    fun h hok => by simp [get, h, hok],
    fun h => by simp [get, h],
    timeoutMessage_ne_httpErrorMessage path status,
    rfl,
    fun h => ⟨by simp [post, not_lt.mpr h], by simp [post, not_lt.mpr h]⟩,
    fun h hok => by simp [post, h, hok],
    fun h hok => by simp [post, h, hok],
    fun h => by simp [post, h],
    postTimeoutMessage_ne_postHttpErrorMessage path status⟩

/-- Closed witness for `apiClient_timeout_taxonomy`: a GET to
`/kpis?domain=telecom` whose response would only arrive at 20000 ms resolves
to the timeout error with the request aborted. -/
theorem apiClient_timeout_taxonomy_witness :
    get "/kpis?domain=telecom" (.respond 20000 200 "{}") =
      ⟨.error (timeoutMessage "/kpis?domain=telecom"), true⟩
    ∧ get (α := String) "/kpis?domain=telecom" (.fail 20000 "network down") =
      ⟨.error (timeoutMessage "/kpis?domain=telecom"), true⟩ :=
  (apiClient_timeout_taxonomy "/kpis?domain=telecom" 20000 200 "{}" "network down").2.1
    (by norm_num [REQUEST_TIMEOUT_MS])

/-! ## View-controller fetch lifecycle (RiskRanking.jsx `useEffect`,
Retention Playbook `useEffect`)

The effect body is embedded as a state machine over the view's React state.
Starting a fetch (the effect re-running on a domain change) runs
`setLoading(true); setData(null); setError(null)`.  A fetch resolution runs
the `.then` / `.catch` / `.finally` callbacks in arrival order; the effect
installs no cleanup and captures no request token, so a resolution is applied
to the state no matter how many newer fetches have started since. -/

/-- The view-local React state of a fetching view controller. -/
structure ViewState where
  data : Option String
  loading : Bool
  error : Option String
deriving DecidableEq, Repr

/-- Initial state (`useState(null)`, `useState(true)`, `useState(null)`). -/
def initialViewState : ViewState := { data := none, loading := true, error := none }

/-- An event at the view-controller boundary: the effect (re)starting a fetch,
or some in-flight fetch resolving with a success payload or an error message. -/
inductive FetchEvent where
  | start
  | resolve (r : Except String String)
deriving Repr

/-- One event applied to the view state, exactly as the effect's callbacks do:
`start` resets data/error and turns the spinner on; a success resolution
stores its payload (`setData` then the `finally` `setLoading(false)`); a
failure resolution stores its message (`setError(e.message)` then
`setLoading(false)`).  No staleness check is made. -/
def applyEvent (s : ViewState) : FetchEvent → ViewState
  | .start => { data := none, loading := true, error := none }
  | .resolve (.ok v) => { s with data := some v, loading := false }
  | .resolve (.error m) => { s with error := some m, loading := false }

/-- The view state after a sequence of events, applied in arrival order. -/
def runView (s : ViewState) (events : List FetchEvent) : ViewState :=
  events.foldl applyEvent s

/-- C6 counterexample: the view fetches domain A, switches to domain B while A
is pending, B's response arrives, then A's stale response arrives.  The code
applies A's resolution anyway, so the displayed data is A's, not B's — the
prior fetch's resolution is NOT ignored, refuting the claim on this input. -/
theorem staleResponse_counterexample :
    (runView initialViewState
        [.start, .start, .resolve (.ok "domainB-data"), .resolve (.ok "domainA-data")]).data
      = some "domainA-data"
    ∧ (runView initialViewState
        [.start, .start, .resolve (.ok "domainB-data"), .resolve (.ok "domainA-data")]).data
      ≠ some "domainB-data" := by
  refine ⟨rfl, ?_⟩
  decide

/-- C6 amended: the view controllers install no stale-response guard, so the
displayed state reflects the most recently *resolved* fetch, whichever fetch
that is: after any event sequence, the last resolution to arrive determines
the stored data (on success) or error (on failure), and clears `loading`. -/
theorem lastResolution_wins (s : ViewState) (es : List FetchEvent)
    (r : Except String String) :
    (∀ v, r = .ok v → (runView s (es ++ [.resolve r])).data = some v)
    ∧ (∀ m, r = .error m → (runView s (es ++ [.resolve r])).error = some m)
    ∧ (runView s (es ++ [.resolve r])).loading = false := by
  rw [runView, List.foldl_append]
  rcases r with m | v
  · exact ⟨fun v hv => by simp at hv, fun m' hm => by cases hm; rfl, rfl⟩
  · exact ⟨fun v' hv => by cases hv; rfl, fun m hm => by simp at hm, rfl⟩

/-- Closed witness for `lastResolution_wins`: a success resolution arriving
last stores its payload. -/
theorem lastResolution_wins_witness :
    (runView initialViewState
        ([.start, .start, .resolve (.ok "domainB-data")] ++
          [.resolve (.ok "domainA-data")])).data = some "domainA-data" :=
  (lastResolution_wins initialViewState [.start, .start, .resolve (.ok "domainB-data")]
      (.ok "domainA-data")).1 "domainA-data" rfl

/-! ## Render guards (C7)

What a view renders is decided by the guard lines at the top of the
component's return path: RiskRanking.jsx renders the spinner while loading
and the inline error box when `error` is set; the Retention Playbook
component only guards on `loading` and then renders the normal page content —
its stored `error` state is never read by the render. -/

/-- What a view renders. -/
inductive RenderOutput where
  | loadingView
  | errorView (message : String)
  | contentView
deriving DecidableEq, Repr

/-- RiskRanking.jsx render dispatch:
`if (loading) …spinner…; if (error) …error-box…; return …content…`. -/
def riskRankingRender (loading : Bool) (error : Option String) : RenderOutput :=
  if loading then .loadingView
  else
    match error with
    | some m => .errorView m
    | none => .contentView

/-- Retention Playbook render dispatch: `if (loading) …spinner…; return
…content…` — there is no errored-state guard. -/
def retentionPlaybookRender (loading : Bool) (error : Option String) : RenderOutput :=
  if loading then .loadingView else .contentView

/-- C7: in the errored state (loading finished, error stored) the Retention
Playbook view renders the normal page content, not an inline error indicator,
while RiskRanking renders the error box — so the all-or-nothing rendering
policy fails for the Retention Playbook view. -/
theorem retentionPlaybook_errored_renders_content :
    retentionPlaybookRender false (some "API /retention-playbook?domain=telecom → 500")
      = .contentView
    ∧ retentionPlaybookRender false (some "API /retention-playbook?domain=telecom → 500")
      ≠ .errorView "API /retention-playbook?domain=telecom → 500"
    ∧ riskRankingRender false (some "API /risk-ranking?domain=telecom → 500")
      = .errorView "API /risk-ranking?domain=telecom → 500" := by
  refine ⟨rfl, ?_, rfl⟩
  decide

end Churn
